import Mathlib

/-!
Shallow embedding of the middleware composition engine of
nextjs-handler-middleware (src/create.ts, src/combine.ts, src/handler.ts,
src/constants.ts).

Modelling conventions:
- The mutable request object (its `method` plus ad hoc attached fields),
  the mutable response object (status and json body) and an event log used
  to observe execution order are bundled into one state `St`; in-place
  mutation of the shared req/res objects becomes explicit state threading.
- A handler `(req, res) => Promise<void>` becomes `St → St × Option String`:
  the final state together with the outcome of the returned promise
  (`none` = fulfilled, `some e` = rejected with error `e`).
- A middleware is a handler transformer, exactly as in src/types.ts.
- A callback `(req, res, next)` receives the current state and the
  continuation; `next()` in the source invokes the wrapped handler on the
  shared (already mutated) req/res, which here is the callback applying the
  continuation to its current state.
-/

namespace NextjsHandlerMiddleware

/-- The observable state threaded through a request: the request method and
the ad hoc fields middleware attach to the request, the response status and
body, and a log recording execution order. -/
structure St where
  method : Option String
  attrs : List (String × String)
  status : Option Nat
  body : Option String
  log : List String
  deriving Repr, DecidableEq

/-- Outcome of invoking a handler: final state plus the promise outcome
(`none` = fulfilled, `some e` = rejected with error `e`). -/
abbrev HResult := St × Option String

/-- `Handler` from src/types.ts: `(req, res) => ReturnType<NextApiHandler>`. -/
abbrev Handler := St → HResult

/-- `Middleware` from src/types.ts: `(handler: H) => H`. -/
abbrev Middleware := Handler → Handler

/-- `Callback` from src/types.ts: `(req, res, next) => ...`; the callback
sees the current state and the continuation it may apply zero or more
times. -/
abbrev Callback := St → Handler → HResult

/-- src/create.ts, `createMiddleware`: the returned `middlewareHandler`
defines `next := () => handler(req, res)` and returns
`await callback(req, res, next)`; no catching, the callback outcome is
returned as is. -/
def createMiddleware (callback : Callback) : Middleware :=
  fun handler => fun s => callback s handler

/-- src/combine.ts line 23, `mergeMiddleware`: `(handler) => a(b(handler))`. -/
def mergeMiddleware (a b : Middleware) : Middleware :=
  fun handler => a (b handler)

/-- src/combine.ts, the composite produced by `stackMiddleware`: it stores
the wrapped middleware `middlewareA` and carries the `kind` tag. -/
structure StackedMiddleware where
  middlewareA : Middleware

/-- src/combine.ts line 30, `stackMiddleware`. -/
def stackMiddleware (middlewareA : Middleware) : StackedMiddleware :=
  ⟨middlewareA⟩

/-- Invoking the composite as a middleware:
`(handler) => middlewareA(handler)`. -/
def StackedMiddleware.apply (sm : StackedMiddleware) : Middleware :=
  fun handler => sm.middlewareA handler

/-- src/combine.ts line 35: `stackedMiddleware.kind = "stack"`. -/
def StackedMiddleware.kind (_ : StackedMiddleware) : String := "stack"

/-- src/combine.ts line 36: `add = (middlewareB) =>
stackMiddleware(mergeMiddleware(middlewareA, middlewareB))`; a fresh
composite is built, the receiver is left untouched. -/
def StackedMiddleware.add (sm : StackedMiddleware) (middlewareB : Middleware) :
    StackedMiddleware :=
  stackMiddleware (mergeMiddleware sm.middlewareA middlewareB)

/-- src/combine.ts, the composite produced by `chainMiddleware`. -/
structure ChainedMiddleware where
  middlewareA : Middleware

/-- src/combine.ts line 47, `chainMiddleware`. -/
def chainMiddleware (middlewareA : Middleware) : ChainedMiddleware :=
  ⟨middlewareA⟩

/-- Invoking the chain composite as a middleware. -/
def ChainedMiddleware.apply (cm : ChainedMiddleware) : Middleware :=
  fun handler => cm.middlewareA handler

/-- src/combine.ts line 52: `chainedMiddleware.kind = "chain"`. -/
def ChainedMiddleware.kind (_ : ChainedMiddleware) : String := "chain"

/-- src/combine.ts line 53: `add = (middlewareB) =>
chainMiddleware(mergeMiddleware(middlewareB, middlewareA))`. -/
def ChainedMiddleware.add (cm : ChainedMiddleware) (middlewareB : Middleware) :
    ChainedMiddleware :=
  chainMiddleware (mergeMiddleware middlewareB cm.middlewareA)

/-- src/constants.ts, `HTTP_METHODS`: the keys of the constant. -/
def HTTP_METHODS : List String :=
  ["GET", "POST", "PUT", "PATCH", "DELETE", "HEAD", "OPTIONS", "TRACE", "CONNECT"]

/-- src/handler.ts, the optional `middleware` entry of the config: one
optional middleware per registrable method plus an optional default. -/
structure MiddlewareConfig where
  post : Option Middleware := none
  get : Option Middleware := none
  patch : Option Middleware := none
  put : Option Middleware := none
  delete : Option Middleware := none
  default : Option Middleware := none

/-- src/types.ts, `CreateHandlerConfig`: `{ middleware?: {...} }`. -/
structure CreateHandlerConfig where
  middleware : Option MiddlewareConfig := none

/-- The dispatcher state of src/handler.ts: the five registration slots
`_post`, `_get`, `_patch`, `_put`, `_delete` (initially undefined). -/
structure MethodTable where
  post : Option Handler := none
  get : Option Handler := none
  patch : Option Handler := none
  put : Option Handler := none
  delete : Option Handler := none

/-- src/handler.ts lines 24-30, `methodMap`: an object literal keyed by the
five registrable upper-case method names; any other key reads undefined. -/
def methodMap (t : MethodTable) (m : String) : Option Handler :=
  if m = "POST" then t.post
  else if m = "PUT" then t.put
  else if m = "PATCH" then t.patch
  else if m = "DELETE" then t.delete
  else if m = "GET" then t.get
  else none

/-- The JavaScript builtin `String.prototype.toUpperCase` (an external
collaborator of the engine), on the ASCII method strings this code meets:
uppercase every character. -/
def toUpperCase (s : String) : String := String.mk (s.data.map Char.toUpper)

/-- `res.status(code).json(message)` of src/handler.ts. -/
def statusJson (code : Nat) (message : String) (s : St) : St :=
  { s with status := some code, body := some message }

/-- src/handler.ts lines 23-47, the dispatcher returned by `createHandler`:
`const method = req.method?.toUpperCase(); if (!method) ...` (the falsy
check catches both an absent method and the empty string), then the
`methodMap` lookup, then `methodHandler(req, res);` which is neither
awaited nor returned: its effects on the shared req/res occur, but a
rejection of its promise is not observed by the caller of the dispatcher,
whose own promise fulfills. -/
def handlerDispatch (t : MethodTable) (s : St) : HResult :=
  match s.method.map toUpperCase with
  | none => (statusJson 500 "Missing request method!" s, none)
  | some m =>
    if m = "" then (statusJson 500 "Missing request method!" s, none)
    else
      match methodMap t m with
      | none => (statusJson 405 "Unsupported method!" s, none)
      | some methodHandler => ((methodHandler s).1, none)

/-- `config?.middleware?.<field> || config?.middleware?.default` of
src/handler.ts (middleware values are functions, hence truthy). -/
def resolvedMiddleware (config : Option CreateHandlerConfig)
    (field : MiddlewareConfig → Option Middleware) : Option Middleware :=
  ((config.bind fun c => c.middleware).bind fun mc => field mc).orElse
    (fun _ => (config.bind fun c => c.middleware).bind fun mc => mc.default)

/-- src/handler.ts lines 61-69, `handler.get`: wrap the supplied handler
with the resolved middleware (method specific if present, else default,
else none) and store it in the `_get` slot. -/
def handlerGet (config : Option CreateHandlerConfig) (t : MethodTable)
    (h : Handler) : MethodTable :=
  { t with get := some (match resolvedMiddleware config (fun mc => mc.get) with
      | some m => m h
      | none => h) }

/-- src/handler.ts lines 50-58, `handler.post`. -/
def handlerPost (config : Option CreateHandlerConfig) (t : MethodTable)
    (h : Handler) : MethodTable :=
  { t with post := some (match resolvedMiddleware config (fun mc => mc.post) with
      | some m => m h
      | none => h) }

/-- src/handler.ts lines 72-80, `handler.patch`. -/
def handlerPatch (config : Option CreateHandlerConfig) (t : MethodTable)
    (h : Handler) : MethodTable :=
  { t with patch := some (match resolvedMiddleware config (fun mc => mc.patch) with
      | some m => m h
      | none => h) }

/-- src/handler.ts lines 83-91, `handler.put`. -/
def handlerPut (config : Option CreateHandlerConfig) (t : MethodTable)
    (h : Handler) : MethodTable :=
  { t with put := some (match resolvedMiddleware config (fun mc => mc.put) with
      | some m => m h
      | none => h) }

/-- src/handler.ts lines 94-103, `handler.delete`. -/
def handlerDelete (config : Option CreateHandlerConfig) (t : MethodTable)
    (h : Handler) : MethodTable :=
  { t with delete := some (match resolvedMiddleware config (fun mc => mc.delete) with
      | some m => m h
      | none => h) }

/-! Concrete callbacks and handlers used to observe execution order, in the
style of tests/combine.test.ts: each logging callback records a marker
before calling `next()` and another after `next()` fulfills (if `next()`
rejects, the code after the awaited call never runs and the rejection
propagates). -/

/-- A callback logging `n.pre` before `next()` and `n.post` after it. -/
def logCallback (n : String) : Callback :=
  fun s next =>
    match next { s with log := s.log ++ [n ++ ".pre"] } with
    | (s2, none) => ({ s2 with log := s2.log ++ [n ++ ".post"] }, none)
    | (s2, some e) => (s2, some e)

/-- The logging callback lifted by the factory. -/
def logMw (n : String) : Middleware := createMiddleware (logCallback n)

/-- A terminal handler that just logs its name. -/
def logHandler (n : String) : Handler :=
  fun s => ({ s with log := s.log ++ [n] }, none)

/-- A terminal handler whose promise rejects with error `e`. -/
def failHandler (e : String) : Handler := fun s => (s, some e)

/-- A handler with no observable effect. -/
def idHandler : Handler := fun s => (s, none)

/-- A callback that writes a 403 response and returns without ever calling
`next`. -/
def shortCircuitCallback : Callback :=
  fun s _ => ({ s with status := some 403, body := some "Forbidden" }, none)

/-- A callback whose promise rejects without calling `next`. -/
def throwCallback : Callback := fun s _ => (s, some "boom")

/-- An empty registration table. -/
def emptyTable : MethodTable := {}

/-- A base request state with a GET method and nothing else. -/
def s0 : St := { method := some "GET", attrs := [], status := none,
                 body := none, log := [] }

/-- A request state with no method at all. -/
def sNone : St := { method := none, attrs := [], status := none,
                    body := none, log := [] }

/-- A request state with lower-case method `foo`, registrable nowhere. -/
def sFoo : St := { method := some "foo", attrs := [], status := none,
                   body := none, log := [] }

/-- A request state with lower-case method `get`. -/
def sGet : St := { method := some "get", attrs := [], status := none,
                   body := none, log := [] }

/-- A request state with method `HEAD`. -/
def sHead : St := { method := some "HEAD", attrs := [], status := none,
                    body := none, log := [] }

/-- A request state whose method is the empty string. -/
def sEmpty : St := { method := some "", attrs := [], status := none,
                     body := none, log := [] }

/-- A table with only a GET handler registered. -/
def tW : MethodTable := { get := some idHandler }

/-- A composed handler whose callback rejects with `boom`. -/
def composedFailing : Handler := createMiddleware throwCallback idHandler

/-- A table whose GET slot holds the failing composed handler. -/
def tC7 : MethodTable := { get := some composedFailing }

/-- A table with all five registrable slots filled. -/
def tFull : MethodTable :=
  { post := some idHandler, get := some idHandler, patch := some idHandler,
    put := some idHandler, delete := some idHandler }

/-! Theorems -/

/-- C1: for every pair of middleware `a`, `b` and every handler `h`, the
handler produced by `mergeMiddleware a b h` is the handler `a (b h)`: on
every state both run the same callbacks in the same order and see the same
request attributes. -/
theorem mergeMiddleware_eq_nested (a b : Middleware) (h : Handler) (s : St) :
    mergeMiddleware a b h s = a (b h) s := rfl

/-- C2: `stackMiddleware a |>.add b |>.add c` applied to `h` is
`a (b (c h))` for all middleware, and for logging middleware the trace on
any state is pre-logic in order a, b, c, then the handler, then post-logic
in order c, b, a. -/
theorem stack_add_order (a b c : Middleware) (h : Handler)
    (na nb nc nh : String) (s : St) :
    (((stackMiddleware a).add b).add c).apply h s = a (b (c h)) s ∧
    (((stackMiddleware (logMw na)).add (logMw nb)).add (logMw nc)).apply
        (logHandler nh) s
      = ({ s with log := s.log ++ [na ++ ".pre", nb ++ ".pre", nc ++ ".pre", nh,
            nc ++ ".post", nb ++ ".post", na ++ ".post"] }, none) := by
  refine ⟨rfl, ?_⟩
  simp [StackedMiddleware.apply, StackedMiddleware.add, stackMiddleware,
    mergeMiddleware, logMw, createMiddleware, logCallback, logHandler,
    List.append_assoc]

/-- C3: `chainMiddleware a |>.add b |>.add c` applied to `h` is
`c (b (a h))` for all middleware, and for logging middleware the pre-logic
order on any state is c, b, a, then the handler: the mirror of the stack
order for the same add sequence. -/
theorem chain_add_order (a b c : Middleware) (h : Handler)
    (na nb nc nh : String) (s : St) :
    (((chainMiddleware a).add b).add c).apply h s = c (b (a h)) s ∧
    (((chainMiddleware (logMw na)).add (logMw nb)).add (logMw nc)).apply
        (logHandler nh) s
      = ({ s with log := s.log ++ [nc ++ ".pre", nb ++ ".pre", na ++ ".pre", nh,
            na ++ ".post", nb ++ ".post", nc ++ ".post"] }, none) := by
  refine ⟨rfl, ?_⟩
  simp [ChainedMiddleware.apply, ChainedMiddleware.add, chainMiddleware,
    mergeMiddleware, logMw, createMiddleware, logCallback, logHandler,
    List.append_assoc]

/-- C4: `add` builds a fresh composite and leaves the receiver untouched:
the behavior of each composite derived from a base is a function of the
base and of its own added middleware alone, and the base composite keeps
applying exactly its stored middleware, so differently extended variants
of a shared base do not interfere. -/
theorem add_does_not_mutate (x1 : StackedMiddleware) (y1 : ChainedMiddleware)
    (m m' : Middleware) (h : Handler) (s : St) :
    x1.apply h s = x1.middlewareA h s ∧
    (x1.add m).apply h s = x1.middlewareA (m h) s ∧
    (x1.add m').apply h s = x1.middlewareA (m' h) s ∧
    y1.apply h s = y1.middlewareA h s ∧
    (y1.add m).apply h s = m (y1.middlewareA h) s ∧
    (y1.add m').apply h s = m' (y1.middlewareA h) s :=
  ⟨rfl, rfl, rfl, rfl, rfl, rfl⟩

/-- C5: `createMiddleware cb handler` is the handler that runs `cb` on the
request state with `next` bound to the wrapped handler and returns the
callback outcome; when the callback never uses `next` (its result does not
depend on it), the wrapped handler is never invoked: the outcome is the
same for every wrapped handler. -/
theorem createMiddleware_runs_callback (cb : Callback)
    (handler handler' : Handler) (s : St)
    (hnc : ∀ t n1 n2, cb t n1 = cb t n2) :
    createMiddleware cb handler s = cb s handler ∧
    createMiddleware cb handler s = createMiddleware cb handler' s :=
  ⟨rfl, hnc s handler handler'⟩

/-- Witness for C5: the 403 short-circuit callback never calls `next`, and
the resulting handler behaves identically for two different wrapped
handlers. -/
theorem createMiddleware_runs_callback_witness :
    createMiddleware shortCircuitCallback (logHandler "A") s0
        = shortCircuitCallback s0 (logHandler "A") ∧
    createMiddleware shortCircuitCallback (logHandler "A") s0
        = createMiddleware shortCircuitCallback (logHandler "B") s0 :=
  createMiddleware_runs_callback shortCircuitCallback (logHandler "A")
    (logHandler "B") s0 (fun _ _ _ => rfl)

/-- C9: `mergeMiddleware` is associative as a composition of handler
transformers: both associations applied to any handler give the handler
`a (b (c h))`. -/
theorem mergeMiddleware_assoc (a b c : Middleware) (h : Handler) (s : St) :
    mergeMiddleware (mergeMiddleware a b) c h s
        = mergeMiddleware a (mergeMiddleware b c) h s ∧
    mergeMiddleware (mergeMiddleware a b) c h s = a (b (c h)) s :=
  ⟨rfl, rfl⟩

/-- C6: the dispatcher writes a 500 response when the request carries no
usable method (absent, or the empty string the falsy check also catches),
writes a 405 response when the uppercase-normalized method has no stored
handler (invoking nothing else), and otherwise invokes the stored,
already wrapped handler on the original request and response. -/
theorem handlerDispatch_spec (t : MethodTable) (s : St) :
    ((s.method = none ∨ s.method = some "") →
      handlerDispatch t s = (statusJson 500 "Missing request method!" s, none)) ∧
    (∀ m, s.method = some m → toUpperCase m ≠ "" →
      methodMap t (toUpperCase m) = none →
      handlerDispatch t s = (statusJson 405 "Unsupported method!" s, none)) ∧
    (∀ m mh, s.method = some m → methodMap t (toUpperCase m) = some mh →
      handlerDispatch t s = ((mh s).1, none)) := by
  refine ⟨?_, ?_, ?_⟩
  · rintro (hm | hm) <;> simp [handlerDispatch, hm, toUpperCase]
  · intro m hm hne hmap
    simp [handlerDispatch, hm, hne, hmap]
  · intro m mh hm hmap
    have hne : toUpperCase m ≠ "" := by
      intro h0
      rw [h0] at hmap
      simp [methodMap] at hmap
    simp [handlerDispatch, hm, hne, hmap]

/-- Witness for C6: with only a GET handler registered, a method-less
request gets the 500 write, method `foo` gets the 405 write, and method
`get` is normalized and dispatched to the stored handler. -/
theorem handlerDispatch_spec_witness :
    handlerDispatch tW sNone = (statusJson 500 "Missing request method!" sNone, none) ∧
    handlerDispatch tW sFoo = (statusJson 405 "Unsupported method!" sFoo, none) ∧
    handlerDispatch tW sGet = ((idHandler sGet).1, none) :=
  ⟨(handlerDispatch_spec tW sNone).1 (Or.inl rfl),
   (handlerDispatch_spec tW sFoo).2.1 "foo" rfl (by decide) rfl,
   (handlerDispatch_spec tW sGet).2.2 "get" idHandler rfl rfl⟩

/-- C7 counterexample: a callback failure propagates out of the composed
handler itself, but the dispatcher calls the stored handler without
awaiting or returning it, so the very same composed handler invoked
through the dispatcher yields a fulfilled outcome: the failure does not
reach whatever invoked the dispatcher. -/
theorem dispatcher_swallows_failure :
    (createMiddleware throwCallback idHandler s0).2 = some "boom" ∧
    handlerDispatch tC7 s0 = (s0, none) :=
  ⟨rfl, rfl⟩

/-- C7 amended: the engine itself catches nothing: the factory returns the
callback outcome unchanged, and a rejection of the terminal handler
passes unmodified through merged logging middleware (whose post-next code
never runs) to whatever invoked the composed handler directly. Only the
dispatcher, which does not await the stored handler, fails to surface it. -/
theorem engine_does_not_catch (cb : Callback) (h : Handler) (s : St)
    (na nb e : String) :
    createMiddleware cb h s = cb s h ∧
    mergeMiddleware (logMw na) (logMw nb) (failHandler e) s
      = ({ s with log := s.log ++ [na ++ ".pre", nb ++ ".pre"] }, some e) := by
  refine ⟨rfl, ?_⟩
  simp [mergeMiddleware, logMw, createMiddleware, logCallback, failHandler,
    List.append_assoc]

/-- C8: for each of the five registrable methods, registering a handler
under a config with only a `default` middleware stores `default h`, a
method-specific middleware for that method wins over the default, and a
request dispatched to that method under the default-only config observes
the default middleware applied to the handler. -/
theorem default_middleware_applies (d g : Middleware) (h : Handler)
    (t : MethodTable) (s : St) :
    ((handlerGet (some ⟨some { default := some d }⟩) t h).get = some (d h) ∧
     (handlerGet (some ⟨some { get := some g, default := some d }⟩) t h).get
        = some (g h) ∧
     handlerDispatch (handlerGet (some ⟨some { default := some d }⟩) emptyTable h)
        { s with method := some "GET" }
      = ((d h { s with method := some "GET" }).1, none)) ∧
    ((handlerPost (some ⟨some { default := some d }⟩) t h).post = some (d h) ∧
     (handlerPost (some ⟨some { post := some g, default := some d }⟩) t h).post
        = some (g h) ∧
     handlerDispatch (handlerPost (some ⟨some { default := some d }⟩) emptyTable h)
        { s with method := some "POST" }
      = ((d h { s with method := some "POST" }).1, none)) ∧
    ((handlerPatch (some ⟨some { default := some d }⟩) t h).patch = some (d h) ∧
     (handlerPatch (some ⟨some { patch := some g, default := some d }⟩) t h).patch
        = some (g h) ∧
     handlerDispatch (handlerPatch (some ⟨some { default := some d }⟩) emptyTable h)
        { s with method := some "PATCH" }
      = ((d h { s with method := some "PATCH" }).1, none)) ∧
    ((handlerPut (some ⟨some { default := some d }⟩) t h).put = some (d h) ∧
     (handlerPut (some ⟨some { put := some g, default := some d }⟩) t h).put
        = some (g h) ∧
     handlerDispatch (handlerPut (some ⟨some { default := some d }⟩) emptyTable h)
        { s with method := some "PUT" }
      = ((d h { s with method := some "PUT" }).1, none)) ∧
    ((handlerDelete (some ⟨some { default := some d }⟩) t h).delete = some (d h) ∧
     (handlerDelete (some ⟨some { delete := some g, default := some d }⟩) t h).delete
        = some (g h) ∧
     handlerDispatch (handlerDelete (some ⟨some { default := some d }⟩) emptyTable h)
        { s with method := some "DELETE" }
      = ((d h { s with method := some "DELETE" }).1, none)) :=
  ⟨⟨rfl, rfl, rfl⟩, ⟨rfl, rfl, rfl⟩, ⟨rfl, rfl, rfl⟩, ⟨rfl, rfl, rfl⟩,
   ⟨rfl, rfl, rfl⟩⟩

/-- C10 counterexample: the empty string is outside the five registrable
methods (and outside HTTP_METHODS), yet a request carrying it receives the
500 write, not the 405 write, because the falsy method check fires first. -/
theorem empty_method_not_405 :
    "" ∉ HTTP_METHODS ∧
    handlerDispatch emptyTable sEmpty
      = (statusJson 500 "Missing request method!" sEmpty, none) ∧
    handlerDispatch emptyTable sEmpty
      ≠ (statusJson 405 "Unsupported method!" sEmpty, none) :=
  ⟨by decide, rfl, by decide⟩

/-- C10 amended: any request whose uppercase-normalized method is nonempty
and differs from all of POST, PUT, PATCH, DELETE and GET receives the 405
write, whatever handlers are registered; only the empty or absent method
falls into the 500 case instead. -/
theorem non_registrable_method_gets_405 (t : MethodTable) (s : St) (m : String)
    (hm : s.method = some m) (h0 : toUpperCase m ≠ "")
    (h1 : toUpperCase m ≠ "POST") (h2 : toUpperCase m ≠ "PUT")
    (h3 : toUpperCase m ≠ "PATCH") (h4 : toUpperCase m ≠ "DELETE")
    (h5 : toUpperCase m ≠ "GET") :
    handlerDispatch t s = (statusJson 405 "Unsupported method!" s, none) := by
  simp [handlerDispatch, hm, methodMap, h0, h1, h2, h3, h4, h5]

/-- Witness for the amended C10: method `HEAD`, a key of HTTP_METHODS with
no registrar, receives the 405 write even with every registrable slot
filled. -/
theorem non_registrable_method_gets_405_witness :
    handlerDispatch tFull sHead = (statusJson 405 "Unsupported method!" sHead, none) :=
  non_registrable_method_gets_405 tFull sHead "HEAD" rfl (by decide) (by decide)
    (by decide) (by decide) (by decide) (by decide)

end NextjsHandlerMiddleware
